import Mathlib

/-!
Shallow embedding of the microlator 6502 CPU core (src/src/cpu.cpp) and
verification of the frozen specification claims.

Machine integers are modelled as `Nat` with explicit reductions modulo
2^8 / 2^16 exactly where the C++ performs an (implicit or explicit)
conversion to `uint8_t` / `uint16_t`.  The 64 KiB memory is a function
from addresses to byte values; the processor status register is a
structure of eight named bits mirroring the `Flags` bit layout
(C, Z, I, D, B, U, V, N from bit 0 to bit 7).
-/

namespace Microlator

/-- Bit `i` of `v`, as in the C++ helper getBit: (value >> index) & 1. -/
def getBitN (i v : Nat) : Bool := (v >>> i) % 2 = 1

/-- Two's complement sign bit test, as in the C++ helper isNegative. -/
def isNegativeN (v : Nat) : Bool := getBitN 7 v

/-- Modelled from the spec: the processor status register P.  The repository's
`Flags` class (declared in a newer cpu.hpp revision that is not in src/) packs
the eight 6502 flags into one byte, bit 0 = Carry .. bit 7 = Negative, exactly
the order of the test harness's StringMaker and of the `Flag` enum in the old
header.  We model it as a structure of eight named bits. -/
structure Flags where
  carry : Bool
  zero : Bool
  interruptOff : Bool
  decimal : Bool
  breakFlag : Bool
  unused : Bool
  overflow : Bool
  negative : Bool
deriving DecidableEq, Repr

/-- The byte value of P, assembling the bits in their architectural
positions (Flags::get in the source). -/
def Flags.toByte (f : Flags) : Nat :=
  (cond f.carry 1 0) + (cond f.zero 2 0) + (cond f.interruptOff 4 0) +
  (cond f.decimal 8 0) + (cond f.breakFlag 16 0) + (cond f.unused 32 0) +
  (cond f.overflow 64 0) + (cond f.negative 128 0)

/-- Reassembling P from a byte (assignment of a byte to `Flags`). -/
def Flags.ofByte (v : Nat) : Flags :=
  ⟨getBitN 0 v, getBitN 1 v, getBitN 2 v, getBitN 3 v,
   getBitN 4 v, getBitN 5 v, getBitN 6 v, getBitN 7 v⟩

/-- Modelled from the spec: `Flags::reset` of the missing header restores the
initial status value 0x24, that is U (bit 5) and I (bit 2) set and every other
flag clear. -/
def Flags.reset : Flags :=
  ⟨false, false, true, false, false, true, false, false⟩

/-- Modelled from the spec: the load address used by tests; the missing header
initialises `pc` with this constant. -/
def initialProgramCounter : Nat := 0x0600

/-- Modelled from the spec: the initial stack pointer value of the missing
header. -/
def initialStackPointer : Nat := 0xFD

/-- Modelled from the spec: base address of the stack page, `0x100 + SP`. -/
def stackTop : Nat := 0x0100

/-- Machine state of the CPU class: three 8-bit registers, the 8-bit stack
pointer, the 16-bit program counter, the status register and the 64 KiB
memory array.  Byte-sized fields hold values below 256 and `pc` a value
below 65536 whenever the state models a real C++ object; the reductions
appear wherever the source converts. -/
structure CPU where
  accumulator : Nat
  indexX : Nat
  indexY : Nat
  stack : Nat
  pc : Nat
  flags : Flags
  memory : Nat → Nat

/-- CPU::read — memory is an array of 65536 uint8_t cells, so a read yields
the stored byte; the index is a uint16_t. -/
def CPU.read (s : CPU) (address : Nat) : Nat :=
  s.memory (address % 65536) % 256

/-- CPU::write — stores a uint8_t at a uint16_t address. -/
def CPU.write (s : CPU) (address value : Nat) : CPU :=
  { s with memory := Function.update s.memory (address % 65536) (value % 256) }

/-- CPU::read2 — little-endian 16-bit read; with `wrapToPage` both the
address and its successor are wrapped to the zero page first
(`wrapToByte`), mirroring the source exactly. -/
def CPU.read2 (s : CPU) (address : Nat) (wrapToPage : Bool) : Nat :=
  let address := if wrapToPage then address % 256 else address
  let highAddress := address + 1
  s.read address +
    (s.read (if wrapToPage then highAddress % 256 else highAddress)) * 256

/-- CPU::push — memory[stackTop + stack--] = value; the uint8_t stack
pointer wraps on decrement. -/
def CPU.push (s : CPU) (value : Nat) : CPU :=
  { s.write (stackTop + s.stack % 256) value with
    stack := (s.stack + 255) % 256 }

/-- CPU::push2 — pushes the high byte then the low byte of a uint16_t. -/
def CPU.push2 (s : CPU) (value : Nat) : CPU :=
  (s.push (value / 256 % 256)).push (value % 256)

/-- CPU::pop — return memory[stackTop + ++stack]; the uint8_t stack pointer
wraps on increment.  Returns the byte and the new state. -/
def CPU.pop (s : CPU) : Nat × CPU :=
  let stack := (s.stack + 1) % 256
  (s.read (stackTop + stack), { s with stack := stack })

/-- CPU::pop2 — pops the low byte then the high byte, assembling
low + (high << 8). -/
def CPU.pop2 (s : CPU) : Nat × CPU :=
  let lo := s.pop
  let hi := lo.2.pop
  (lo.1 + hi.1 * 256, hi.2)

/-- CPU::popFlags — pops a byte, forces the Unused bit on and the Break bit
off, and assigns it to the status register. -/
def CPU.popFlags (s : CPU) : CPU :=
  let v := s.pop
  { v.2 with flags :=
      { Flags.ofByte v.1 with unused := true, breakFlag := false } }

/-- CPU::calculateFlag specialised to the (Zero, Negative) argument pair,
the only combination appearing at any call site: Z := (value == 0),
N := bit 7 of value, for the uint8_t parameter value. -/
def CPU.calculateFlag (s : CPU) (value : Nat) : CPU :=
  let value := value % 256
  { s with flags :=
      { s.flags with zero := value = 0, negative := isNegativeN value } }

/-- CPU::compare — Z := (a == b), C := (a >= b), N := sign of the 8-bit
difference a - b (computed in int, converted to uint8_t). -/
def CPU.compare (s : CPU) (a b : Nat) : CPU :=
  let a := a % 256
  let b := b % 256
  { s with flags :=
      { s.flags with
        zero := a = b,
        carry := b ≤ a,
        negative := isNegativeN ((a + 256 - b) % 256) } }

/-- CPU::addWithCarry — result is the uint8_t sum accumulator + value +
carry-in; Z and N from the result; V when the result's sign differs from
the signs of both addends; C when the uint8_t result is smaller than the
old accumulator; finally the accumulator is assigned the result. -/
def CPU.addWithCarry (s : CPU) (value : Nat) : CPU :=
  let value := value % 256
  let result := (s.accumulator + value + cond s.flags.carry 1 0) % 256
  let s1 := s.calculateFlag result
  let s2 := { s1 with flags :=
      { s1.flags with overflow :=
          (isNegativeN s.accumulator ≠ isNegativeN result) ∧
          (isNegativeN value ≠ isNegativeN result) } }
  let s3 := { s2 with flags := { s2.flags with carry := result < s.accumulator } }
  { s3 with accumulator := result }

/-- CPU::reset — zeroes memory and restores pc, stack and flags to their
initial values; the general registers are not touched. -/
def CPU.reset (s : CPU) : CPU :=
  { s with
    memory := fun _ => 0,
    pc := initialProgramCounter,
    stack := initialStackPointer,
    flags := Flags.reset }

/-- Modelled from the spec: the freshly constructed CPU object of the missing
header — all registers zero, SP and PC and P at their initial values, memory
zeroed (the in-class member initialisers). -/
def CPU.init : CPU :=
  ⟨0, 0, 0, initialStackPointer, initialProgramCounter, Flags.reset,
   fun _ => 0⟩

/-- CPU::loadProgram — throws when offset + program.size() > memory.size()
(65536); otherwise copies the bytes (uint8_t elements) into memory starting
at `offset` and sets pc := offset.  `none` models the thrown exception. -/
def CPU.loadProgram (s : CPU) (program : List Nat) (offset : Nat) :
    Option CPU :=
  if 65536 < offset + program.length then none
  else some
    { s with
      memory := fun a =>
        if offset ≤ a ∧ a < offset + program.length then
          program.getD (a - offset) 0 % 256
        else s.memory a,
      pc := offset }

/-- The twelve addressing modes of the AddressMode enum. -/
inductive AddressMode where
  | Implicit
  | Accumulator
  | Immediate
  | Absolute
  | AbsoluteX
  | AbsoluteY
  | Indirect
  | IndirectX
  | IndirectY
  | Relative
  | Zeropage
  | ZeropageX
  | ZeropageY
deriving DecidableEq, Repr

/-- The variant tag of the ValueStore operand handle (newer revision, as
used by cpu.cpp: Accumulator, Memory, Implicit and Value). -/
inductive VSType where
  | Accumulator
  | Memory
  | Implicit
  | Value
deriving DecidableEq, Repr

/-- The ValueStore operand handle: a uint16_t payload plus the variant tag.
The back-reference to the CPU is passed explicitly to read/write instead. -/
structure ValueStore where
  value : Nat
  type : VSType
deriving DecidableEq, Repr

/-- ValueStore::get — the raw stored value (the effective address for
Memory handles, the literal for Value handles). -/
def ValueStore.get (t : ValueStore) : Nat := t.value

/-- ValueStore::read — Accumulator yields the accumulator, Memory the byte
at the stored address, Value the stored literal; the Implicit case (an
assertion failure in the source) yields the value-initialised 0. -/
def ValueStore.read (t : ValueStore) (s : CPU) : Nat :=
  match t.type with
  | VSType.Accumulator => s.accumulator
  | VSType.Memory => s.read t.value
  | VSType.Value => t.value
  | VSType.Implicit => 0

/-- ValueStore::write — stores a uint8_t into the accumulator or into
memory; Implicit and Value handles (assertion failures) leave the state
unchanged, as the release-mode source does. -/
def ValueStore.write (t : ValueStore) (s : CPU) (newValue : Nat) : CPU :=
  match t.type with
  | VSType.Accumulator => { s with accumulator := newValue % 256 }
  | VSType.Memory => s.write t.value newValue
  | VSType.Implicit => s
  | VSType.Value => s

/-- CPU::getTarget for Mode::Immediate — the literal byte at pc, pc += 1. -/
def CPU.getImmediate (s : CPU) : ValueStore × CPU :=
  (⟨s.read s.pc, VSType.Value⟩, { s with pc := (s.pc + 1) % 65536 })

/-- CPU::getTarget for Mode::Absolute — the little-endian 16-bit address at
pc, pc += 2. -/
def CPU.getAbsolute (s : CPU) : ValueStore × CPU :=
  (⟨s.read2 s.pc false, VSType.Memory⟩, { s with pc := (s.pc + 2) % 65536 })

/-- CPU::getTarget for Mode::Zeropage — the single byte at pc as an
address, pc += 1. -/
def CPU.getZeropage (s : CPU) : ValueStore × CPU :=
  (⟨s.read s.pc, VSType.Memory⟩, { s with pc := (s.pc + 1) % 65536 })

/-- CPU::getTarget — decodes the operand of the given addressing mode,
advancing pc over the operand bytes, and returns the operand handle.
Composite modes call the base modes exactly as the source does. -/
def CPU.getTarget (s : CPU) (mode : AddressMode) : ValueStore × CPU :=
  match mode with
  | AddressMode.Implicit => (⟨0, VSType.Implicit⟩, s)
  | AddressMode.Accumulator => (⟨0, VSType.Accumulator⟩, s)
  | AddressMode.Immediate => s.getImmediate
  | AddressMode.Absolute => s.getAbsolute
  | AddressMode.AbsoluteX =>
    let t := s.getAbsolute
    (⟨(t.1.get + s.indexX) % 65536, VSType.Memory⟩, t.2)
  | AddressMode.AbsoluteY =>
    let t := s.getAbsolute
    (⟨(t.1.get + s.indexY) % 65536, VSType.Memory⟩, t.2)
  | AddressMode.Indirect =>
    let t := s.getAbsolute
    let lowTarget := t.1.get
    -- indirectJumpBug (true by default): when the low byte of the address
    -- is non-zero the high pointer byte is read from lowTarget & 0xff00
    let highTarget :=
      if lowTarget % 256 ≠ 0 then lowTarget - lowTarget % 256
      else lowTarget + 1
    (⟨(t.2.read highTarget * 256 + t.2.read lowTarget) % 65536,
      VSType.Memory⟩, t.2)
  | AddressMode.IndirectX =>
    let t := s.getZeropage
    let indirectAddr := t.1.get + s.indexX
    (⟨t.2.read2 indirectAddr true, VSType.Memory⟩, t.2)
  | AddressMode.IndirectY =>
    let t := s.getZeropage
    let indirectAddr := t.1.get
    (⟨(t.2.read2 indirectAddr true + s.indexY) % 65536, VSType.Memory⟩, t.2)
  | AddressMode.Relative =>
    let t := s.getImmediate
    let value := t.1.get
    let lowerBits := value ^^^ 0b10000000
    -- When the sign bit is set the source computes
    -- toU16(pc - (~lowerBits + 1)); in int arithmetic ~lowerBits + 1 is
    -- -lowerBits, so the target is pc + lowerBits reduced mod 2^16.
    if isNegativeN value then
      (⟨(t.2.pc + lowerBits) % 65536, VSType.Memory⟩, t.2)
    else
      (⟨(t.2.pc + value) % 65536, VSType.Memory⟩, t.2)
  | AddressMode.Zeropage => s.getZeropage
  | AddressMode.ZeropageX =>
    let t := s.getImmediate
    (⟨(t.1.get + s.indexX) % 256, VSType.Memory⟩, t.2)
  | AddressMode.ZeropageY =>
    let t := s.getImmediate
    (⟨(t.1.get + s.indexY) % 256, VSType.Memory⟩, t.2)

/-- CPU::oADC. -/
def CPU.oADC (s : CPU) (address : ValueStore) : CPU :=
  s.addWithCarry (address.read s)

/-- CPU::oAND — accumulator &= input, then Z and N from the accumulator. -/
def CPU.oAND (s : CPU) (address : ValueStore) : CPU :=
  let input := address.read s
  let s1 := { s with accumulator := (s.accumulator &&& input) % 256 }
  s1.calculateFlag s1.accumulator

/-- CPU::oASL — C := bit 7 of the input, result := input << 1 (flag logic
and write-back convert to uint8_t). -/
def CPU.oASL (s : CPU) (address : ValueStore) : CPU :=
  let input := address.read s
  let s1 := { s with flags := { s.flags with carry := getBitN 7 (input % 256) } }
  let result := input * 2
  let s2 := s1.calculateFlag result
  address.write s2 result

/-- CPU::oBCC — branch when Carry is clear. -/
def CPU.oBCC (s : CPU) (target : ValueStore) : CPU :=
  if s.flags.carry then s else { s with pc := target.get }

/-- CPU::oBCS — branch when Carry is set. -/
def CPU.oBCS (s : CPU) (target : ValueStore) : CPU :=
  if s.flags.carry then { s with pc := target.get } else s

/-- CPU::oBEQ — branch when Zero is set. -/
def CPU.oBEQ (s : CPU) (target : ValueStore) : CPU :=
  if s.flags.zero then { s with pc := target.get } else s

/-- CPU::oBIT — Z from input AND accumulator, V from input bit 6, N from
input bit 7. -/
def CPU.oBIT (s : CPU) (address : ValueStore) : CPU :=
  let input := address.read s
  { s with flags := { s.flags with
      zero := (input &&& s.accumulator) = 0,
      overflow := getBitN 6 (input % 256),
      negative := isNegativeN (input % 256) } }

/-- CPU::oBMI — branch when Negative is set. -/
def CPU.oBMI (s : CPU) (target : ValueStore) : CPU :=
  if s.flags.negative then { s with pc := target.get } else s

/-- CPU::oBNE — branch when Zero is clear. -/
def CPU.oBNE (s : CPU) (target : ValueStore) : CPU :=
  if s.flags.zero then s else { s with pc := target.get }

/-- CPU::oBPL — branch when Negative is clear. -/
def CPU.oBPL (s : CPU) (target : ValueStore) : CPU :=
  if s.flags.negative then s else { s with pc := target.get }

/-- CPU::oBRK — set InterruptOff, push the 16-bit pc, push the status
byte as it is (flags.get() with no Break fix-up). -/
def CPU.oBRK (s : CPU) (_target : ValueStore) : CPU :=
  let s1 := { s with flags := { s.flags with interruptOff := true } }
  let s2 := s1.push2 s1.pc
  s2.push s2.flags.toByte

/-- CPU::oBVC — branch when Overflow is clear. -/
def CPU.oBVC (s : CPU) (target : ValueStore) : CPU :=
  if s.flags.overflow then s else { s with pc := target.get }

/-- CPU::oBVS — branch when Overflow is set. -/
def CPU.oBVS (s : CPU) (target : ValueStore) : CPU :=
  if s.flags.overflow then { s with pc := target.get } else s

/-- CPU::oCLC. -/
def CPU.oCLC (s : CPU) (_target : ValueStore) : CPU :=
  { s with flags := { s.flags with carry := false } }

/-- CPU::oCLD. -/
def CPU.oCLD (s : CPU) (_target : ValueStore) : CPU :=
  { s with flags := { s.flags with decimal := false } }

/-- CPU::oCLI. -/
def CPU.oCLI (s : CPU) (_target : ValueStore) : CPU :=
  { s with flags := { s.flags with interruptOff := false } }

/-- CPU::oCLV. -/
def CPU.oCLV (s : CPU) (_target : ValueStore) : CPU :=
  { s with flags := { s.flags with overflow := false } }

/-- CPU::oCMP. -/
def CPU.oCMP (s : CPU) (address : ValueStore) : CPU :=
  s.compare s.accumulator (address.read s)

/-- CPU::oCPX. -/
def CPU.oCPX (s : CPU) (address : ValueStore) : CPU :=
  s.compare s.indexX (address.read s)

/-- CPU::oCPY. -/
def CPU.oCPY (s : CPU) (address : ValueStore) : CPU :=
  s.compare s.indexY (address.read s)

/-- CPU::oDEC — input - 1 (int), flags and write-back as uint8_t. -/
def CPU.oDEC (s : CPU) (address : ValueStore) : CPU :=
  let input := address.read s
  let result := (input + 255) % 256
  let s1 := s.calculateFlag result
  address.write s1 result

/-- CPU::oDEX. -/
def CPU.oDEX (s : CPU) (_target : ValueStore) : CPU :=
  let result := (s.indexX + 255) % 256
  let s1 := s.calculateFlag result
  { s1 with indexX := result }

/-- CPU::oDEY. -/
def CPU.oDEY (s : CPU) (_target : ValueStore) : CPU :=
  let result := (s.indexY + 255) % 256
  let s1 := s.calculateFlag result
  { s1 with indexY := result }

/-- CPU::oEOR. -/
def CPU.oEOR (s : CPU) (address : ValueStore) : CPU :=
  let input := address.read s
  let s1 := { s with accumulator := (s.accumulator ^^^ input) % 256 }
  s1.calculateFlag s1.accumulator

/-- CPU::oINC. -/
def CPU.oINC (s : CPU) (address : ValueStore) : CPU :=
  let input := address.read s
  let result := (input + 1) % 256
  let s1 := s.calculateFlag result
  address.write s1 result

/-- CPU::oINX. -/
def CPU.oINX (s : CPU) (_target : ValueStore) : CPU :=
  let result := (s.indexX + 1) % 256
  let s1 := s.calculateFlag result
  { s1 with indexX := result }

/-- CPU::oINY. -/
def CPU.oINY (s : CPU) (_target : ValueStore) : CPU :=
  let result := (s.indexY + 1) % 256
  let s1 := s.calculateFlag result
  { s1 with indexY := result }

/-- CPU::oJMP. -/
def CPU.oJMP (s : CPU) (target : ValueStore) : CPU :=
  { s with pc := target.get }

/-- CPU::oJSR — push toU16(pc - 1) then jump. -/
def CPU.oJSR (s : CPU) (target : ValueStore) : CPU :=
  let s1 := s.push2 ((s.pc + 65535) % 65536)
  { s1 with pc := target.get }

/-- CPU::oLDA. -/
def CPU.oLDA (s : CPU) (address : ValueStore) : CPU :=
  let input := address.read s
  let s1 := { s with accumulator := input % 256 }
  s1.calculateFlag input

/-- CPU::oLDX. -/
def CPU.oLDX (s : CPU) (address : ValueStore) : CPU :=
  let input := address.read s
  let s1 := { s with indexX := input % 256 }
  s1.calculateFlag input

/-- CPU::oLDY. -/
def CPU.oLDY (s : CPU) (address : ValueStore) : CPU :=
  let input := address.read s
  let s1 := { s with indexY := input % 256 }
  s1.calculateFlag input

/-- CPU::oLSR — result := input >> 1, Z and N from it, C := bit 0 of the
input, write back. -/
def CPU.oLSR (s : CPU) (address : ValueStore) : CPU :=
  let input := address.read s
  let result := input / 2
  let s1 := s.calculateFlag result
  let s2 := { s1 with flags := { s1.flags with carry := getBitN 0 (input % 256) } }
  address.write s2 result

/-- CPU::oNOP. -/
def CPU.oNOP (s : CPU) (_target : ValueStore) : CPU := s

/-- CPU::oORA. -/
def CPU.oORA (s : CPU) (address : ValueStore) : CPU :=
  let input := address.read s
  let result := s.accumulator ||| input
  let s1 := s.calculateFlag result
  { s1 with accumulator := result % 256 }

/-- CPU::oPHA. -/
def CPU.oPHA (s : CPU) (_target : ValueStore) : CPU :=
  s.push s.accumulator

/-- CPU::oPHP — pushes flags.get() with the Break bit (bitmask 16) ORed
in. -/
def CPU.oPHP (s : CPU) (_target : ValueStore) : CPU :=
  s.push (s.flags.toByte ||| 16)

/-- CPU::oPLA. -/
def CPU.oPLA (s : CPU) (_target : ValueStore) : CPU :=
  let v := s.pop
  let s1 := { v.2 with accumulator := v.1 }
  s1.calculateFlag s1.accumulator

/-- CPU::oPLP. -/
def CPU.oPLP (s : CPU) (_target : ValueStore) : CPU :=
  s.popFlags

/-- CPU::oROL — result := setBit(0, input << 1, old C), C := bit 7 of the
input, then Z, N and write back. -/
def CPU.oROL (s : CPU) (address : ValueStore) : CPU :=
  let input := address.read s
  let result := ((input * 2) % 256) ||| (cond s.flags.carry 1 0)
  let s1 := { s with flags := { s.flags with carry := getBitN 7 (input % 256) } }
  let s2 := s1.calculateFlag result
  address.write s2 result

/-- CPU::oROR — result := setBit(7, input >> 1, old C), C := bit 0 of the
input, then Z, N and write back. -/
def CPU.oROR (s : CPU) (address : ValueStore) : CPU :=
  let input := address.read s
  let result := ((input / 2) % 256) ||| (cond s.flags.carry 128 0)
  let s1 := { s with flags := { s.flags with carry := getBitN 0 (input % 256) } }
  let s2 := s1.calculateFlag result
  address.write s2 result

/-- CPU::oRTI — pop flags (with the U/B fix-up) then pop the 16-bit pc. -/
def CPU.oRTI (s : CPU) (_target : ValueStore) : CPU :=
  let s1 := s.popFlags
  let v := s1.pop2
  { v.2 with pc := v.1 }

/-- CPU::oRTS — pc := pop2() + 1 (assigned to uint16_t). -/
def CPU.oRTS (s : CPU) (_target : ValueStore) : CPU :=
  let v := s.pop2
  { v.2 with pc := (v.1 + 1) % 65536 }

/-- CPU::oSBC — addWithCarry(~input); the bitwise complement of the
uint16_t read converted to the uint8_t parameter is 255 - (input mod
256). -/
def CPU.oSBC (s : CPU) (address : ValueStore) : CPU :=
  s.addWithCarry (255 - (address.read s) % 256)

/-- CPU::oSEC. -/
def CPU.oSEC (s : CPU) (_target : ValueStore) : CPU :=
  { s with flags := { s.flags with carry := true } }

/-- CPU::oSED. -/
def CPU.oSED (s : CPU) (_target : ValueStore) : CPU :=
  { s with flags := { s.flags with decimal := true } }

/-- CPU::oSEI. -/
def CPU.oSEI (s : CPU) (_target : ValueStore) : CPU :=
  { s with flags := { s.flags with interruptOff := true } }

/-- CPU::oSTA. -/
def CPU.oSTA (s : CPU) (address : ValueStore) : CPU :=
  address.write s s.accumulator

/-- CPU::oSTX. -/
def CPU.oSTX (s : CPU) (address : ValueStore) : CPU :=
  address.write s s.indexX

/-- CPU::oSTY. -/
def CPU.oSTY (s : CPU) (address : ValueStore) : CPU :=
  address.write s s.indexY

/-- CPU::oTAX. -/
def CPU.oTAX (s : CPU) (_target : ValueStore) : CPU :=
  let s1 := { s with indexX := s.accumulator }
  s1.calculateFlag s1.indexX

/-- CPU::oTAY. -/
def CPU.oTAY (s : CPU) (_target : ValueStore) : CPU :=
  let s1 := { s with indexY := s.accumulator }
  s1.calculateFlag s1.indexY

/-- CPU::oTSX. -/
def CPU.oTSX (s : CPU) (_target : ValueStore) : CPU :=
  let s1 := { s with indexX := s.stack }
  s1.calculateFlag s1.indexX

/-- CPU::oTXA. -/
def CPU.oTXA (s : CPU) (_target : ValueStore) : CPU :=
  let s1 := { s with accumulator := s.indexX }
  s1.calculateFlag s1.accumulator

/-- CPU::oTXS — no flag effects. -/
def CPU.oTXS (s : CPU) (_target : ValueStore) : CPU :=
  { s with stack := s.indexX }

/-- CPU::oTYA. -/
def CPU.oTYA (s : CPU) (_target : ValueStore) : CPU :=
  let s1 := { s with accumulator := s.indexY }
  s1.calculateFlag s1.accumulator

/-- The 56 documented operations, naming the member-function pointers of
the instruction table. -/
inductive Op where
  | ADC | AND | ASL | BCC | BCS | BEQ | BIT | BMI | BNE | BPL | BRK
  | BVC | BVS | CLC | CLD | CLI | CLV | CMP | CPX | CPY | DEC | DEX
  | DEY | EOR | INC | INX | INY | JMP | JSR | LDA | LDX | LDY | LSR
  | NOP | ORA | PHA | PHP | PLA | PLP | ROL | ROR | RTI | RTS | SBC
  | SEC | SED | SEI | STA | STX | STY | TAX | TAY | TSX | TXA | TXS
  | TYA
deriving DecidableEq, Repr

/-- std::invoke(instruction.function, this, target) — dispatch of an
operation name to its member function. -/
def CPU.execOp (s : CPU) (op : Op) (target : ValueStore) : CPU :=
  match op with
  | Op.ADC => s.oADC target
  | Op.AND => s.oAND target
  | Op.ASL => s.oASL target
  | Op.BCC => s.oBCC target
  | Op.BCS => s.oBCS target
  | Op.BEQ => s.oBEQ target
  | Op.BIT => s.oBIT target
  | Op.BMI => s.oBMI target
  | Op.BNE => s.oBNE target
  | Op.BPL => s.oBPL target
  | Op.BRK => s.oBRK target
  | Op.BVC => s.oBVC target
  | Op.BVS => s.oBVS target
  | Op.CLC => s.oCLC target
  | Op.CLD => s.oCLD target
  | Op.CLI => s.oCLI target
  | Op.CLV => s.oCLV target
  | Op.CMP => s.oCMP target
  | Op.CPX => s.oCPX target
  | Op.CPY => s.oCPY target
  | Op.DEC => s.oDEC target
  | Op.DEX => s.oDEX target
  | Op.DEY => s.oDEY target
  | Op.EOR => s.oEOR target
  | Op.INC => s.oINC target
  | Op.INX => s.oINX target
  | Op.INY => s.oINY target
  | Op.JMP => s.oJMP target
  | Op.JSR => s.oJSR target
  | Op.LDA => s.oLDA target
  | Op.LDX => s.oLDX target
  | Op.LDY => s.oLDY target
  | Op.LSR => s.oLSR target
  | Op.NOP => s.oNOP target
  | Op.ORA => s.oORA target
  | Op.PHA => s.oPHA target
  | Op.PHP => s.oPHP target
  | Op.PLA => s.oPLA target
  | Op.PLP => s.oPLP target
  | Op.ROL => s.oROL target
  | Op.ROR => s.oROR target
  | Op.RTI => s.oRTI target
  | Op.RTS => s.oRTS target
  | Op.SBC => s.oSBC target
  | Op.SEC => s.oSEC target
  | Op.SED => s.oSED target
  | Op.SEI => s.oSEI target
  | Op.STA => s.oSTA target
  | Op.STX => s.oSTX target
  | Op.STY => s.oSTY target
  | Op.TAX => s.oTAX target
  | Op.TAY => s.oTAY target
  | Op.TSX => s.oTSX target
  | Op.TXA => s.oTXA target
  | Op.TXS => s.oTXS target
  | Op.TYA => s.oTYA target

/-- CPU::getInstructions — the 256-entry opcode table; `none` models a
null function pointer (undocumented opcode), and entries without an
explicit mode use the default AddressMode::Implicit. -/
def instructions (opcode : Nat) : Option (Op × AddressMode) :=
  match opcode with
  | 0x00 => some (.BRK, .Implicit)
  | 0x01 => some (.ORA, .IndirectX)
  | 0x05 => some (.ORA, .Zeropage)
  | 0x06 => some (.ASL, .Zeropage)
  | 0x08 => some (.PHP, .Implicit)
  | 0x09 => some (.ORA, .Immediate)
  | 0x0A => some (.ASL, .Accumulator)
  | 0x0D => some (.ORA, .Absolute)
  | 0x0E => some (.ASL, .Absolute)
  | 0x10 => some (.BPL, .Relative)
  | 0x11 => some (.ORA, .IndirectY)
  | 0x15 => some (.ORA, .ZeropageX)
  | 0x16 => some (.ASL, .ZeropageX)
  | 0x18 => some (.CLC, .Implicit)
  | 0x19 => some (.ORA, .AbsoluteY)
  | 0x1D => some (.ORA, .AbsoluteX)
  | 0x1E => some (.ASL, .AbsoluteX)
  | 0x20 => some (.JSR, .Absolute)
  | 0x21 => some (.AND, .IndirectX)
  | 0x24 => some (.BIT, .Zeropage)
  | 0x25 => some (.AND, .Zeropage)
  | 0x26 => some (.ROL, .Zeropage)
  | 0x28 => some (.PLP, .Implicit)
  | 0x29 => some (.AND, .Immediate)
  | 0x2A => some (.ROL, .Accumulator)
  | 0x2C => some (.BIT, .Absolute)
  | 0x2D => some (.AND, .Absolute)
  | 0x2E => some (.ROL, .Absolute)
  | 0x30 => some (.BMI, .Relative)
  | 0x31 => some (.AND, .IndirectY)
  | 0x35 => some (.AND, .ZeropageX)
  | 0x36 => some (.ROL, .ZeropageX)
  | 0x38 => some (.SEC, .Implicit)
  | 0x39 => some (.AND, .AbsoluteY)
  | 0x3D => some (.AND, .AbsoluteX)
  | 0x3E => some (.ROL, .AbsoluteX)
  | 0x40 => some (.RTI, .Implicit)
  | 0x41 => some (.EOR, .IndirectX)
  | 0x45 => some (.EOR, .Zeropage)
  | 0x46 => some (.LSR, .Zeropage)
  | 0x48 => some (.PHA, .Implicit)
  | 0x49 => some (.EOR, .Immediate)
  | 0x4A => some (.LSR, .Accumulator)
  | 0x4C => some (.JMP, .Absolute)
  | 0x4D => some (.EOR, .Absolute)
  | 0x4E => some (.LSR, .Absolute)
  | 0x50 => some (.BVC, .Relative)
  | 0x51 => some (.EOR, .IndirectY)
  | 0x55 => some (.EOR, .ZeropageX)
  | 0x56 => some (.LSR, .ZeropageX)
  | 0x58 => some (.CLI, .Implicit)
  | 0x59 => some (.EOR, .AbsoluteY)
  | 0x5D => some (.EOR, .AbsoluteX)
  | 0x5E => some (.LSR, .AbsoluteX)
  | 0x60 => some (.RTS, .Implicit)
  | 0x61 => some (.ADC, .IndirectX)
  | 0x65 => some (.ADC, .Zeropage)
  | 0x66 => some (.ROR, .Zeropage)
  | 0x68 => some (.PLA, .Implicit)
  | 0x69 => some (.ADC, .Immediate)
  | 0x6A => some (.ROR, .Accumulator)
  | 0x6C => some (.JMP, .Indirect)
  | 0x6D => some (.ADC, .Absolute)
  | 0x6E => some (.ROR, .Absolute)
  | 0x70 => some (.BVS, .Relative)
  | 0x71 => some (.ADC, .IndirectY)
  | 0x75 => some (.ADC, .ZeropageX)
  | 0x76 => some (.ROR, .ZeropageX)
  | 0x78 => some (.SEI, .Implicit)
  | 0x79 => some (.ADC, .AbsoluteY)
  | 0x7D => some (.ADC, .AbsoluteX)
  | 0x7E => some (.ROR, .AbsoluteX)
  | 0x81 => some (.STA, .IndirectX)
  | 0x84 => some (.STY, .Zeropage)
  | 0x85 => some (.STA, .Zeropage)
  | 0x86 => some (.STX, .Zeropage)
  | 0x88 => some (.DEY, .Implicit)
  | 0x8A => some (.TXA, .Implicit)
  | 0x8C => some (.STY, .Absolute)
  | 0x8D => some (.STA, .Absolute)
  | 0x8E => some (.STX, .Absolute)
  | 0x90 => some (.BCC, .Relative)
  | 0x91 => some (.STA, .IndirectY)
  | 0x94 => some (.STY, .ZeropageX)
  | 0x95 => some (.STA, .ZeropageX)
  | 0x96 => some (.STX, .ZeropageY)
  | 0x98 => some (.TYA, .Implicit)
  | 0x99 => some (.STA, .AbsoluteY)
  | 0x9A => some (.TXS, .Implicit)
  | 0x9D => some (.STA, .AbsoluteX)
  | 0xA0 => some (.LDY, .Immediate)
  | 0xA1 => some (.LDA, .IndirectX)
  | 0xA2 => some (.LDX, .Immediate)
  | 0xA4 => some (.LDY, .Zeropage)
  | 0xA5 => some (.LDA, .Zeropage)
  | 0xA6 => some (.LDX, .Zeropage)
  | 0xA8 => some (.TAY, .Implicit)
  | 0xA9 => some (.LDA, .Immediate)
  | 0xAA => some (.TAX, .Implicit)
  | 0xAC => some (.LDY, .Absolute)
  | 0xAD => some (.LDA, .Absolute)
  | 0xAE => some (.LDX, .Absolute)
  | 0xB0 => some (.BCS, .Relative)
  | 0xB1 => some (.LDA, .IndirectY)
  | 0xB4 => some (.LDY, .ZeropageX)
  | 0xB5 => some (.LDA, .ZeropageX)
  | 0xB6 => some (.LDX, .ZeropageY)
  | 0xB8 => some (.CLV, .Implicit)
  | 0xB9 => some (.LDA, .AbsoluteY)
  | 0xBA => some (.TSX, .Implicit)
  | 0xBC => some (.LDY, .AbsoluteX)
  | 0xBD => some (.LDA, .AbsoluteX)
  | 0xBE => some (.LDX, .AbsoluteY)
  | 0xC0 => some (.CPY, .Immediate)
  | 0xC1 => some (.CMP, .IndirectX)
  | 0xC4 => some (.CPY, .Zeropage)
  | 0xC5 => some (.CMP, .Zeropage)
  | 0xC6 => some (.DEC, .Zeropage)
  | 0xC8 => some (.INY, .Implicit)
  | 0xC9 => some (.CMP, .Immediate)
  | 0xCA => some (.DEX, .Implicit)
  | 0xCC => some (.CPY, .Absolute)
  | 0xCD => some (.CMP, .Absolute)
  | 0xCE => some (.DEC, .Absolute)
  | 0xD0 => some (.BNE, .Relative)
  | 0xD1 => some (.CMP, .IndirectY)
  | 0xD5 => some (.CMP, .ZeropageX)
  | 0xD6 => some (.DEC, .ZeropageX)
  | 0xD8 => some (.CLD, .Implicit)
  | 0xD9 => some (.CMP, .AbsoluteY)
  | 0xDD => some (.CMP, .AbsoluteX)
  | 0xDE => some (.DEC, .AbsoluteX)
  | 0xE0 => some (.CPX, .Immediate)
  | 0xE1 => some (.SBC, .IndirectX)
  | 0xE4 => some (.CPX, .Zeropage)
  | 0xE5 => some (.SBC, .Zeropage)
  | 0xE6 => some (.INC, .Zeropage)
  | 0xE8 => some (.INX, .Implicit)
  | 0xE9 => some (.SBC, .Immediate)
  | 0xEA => some (.NOP, .Implicit)
  | 0xEC => some (.CPX, .Absolute)
  | 0xED => some (.SBC, .Absolute)
  | 0xEE => some (.INC, .Absolute)
  | 0xF0 => some (.BEQ, .Relative)
  | 0xF1 => some (.SBC, .IndirectY)
  | 0xF5 => some (.SBC, .ZeropageX)
  | 0xF6 => some (.INC, .ZeropageX)
  | 0xF8 => some (.SED, .Implicit)
  | 0xF9 => some (.SBC, .AbsoluteY)
  | 0xFD => some (.SBC, .AbsoluteX)
  | 0xFE => some (.INC, .AbsoluteX)
  | _ => none

/-- CPU::step — fetch the opcode at pc (incrementing pc), look it up in
the table, return false on a null entry, otherwise resolve the addressing
mode and dispatch; returns the halt indicator and the new state. -/
def CPU.step (s : CPU) : Bool × CPU :=
  let opcode := s.read s.pc
  let s1 := { s with pc := (s.pc + 1) % 65536 }
  match instructions opcode with
  | none => (false, s1)
  | some instruction =>
    let target := s1.getTarget instruction.2
    (true, target.2.execOp instruction.1 target.1)

/-- States reachable from a reset by stepping the interpreter. -/
inductive Reachable : CPU → Prop where
  | reset : ∀ s : CPU, Reachable s.reset
  | step : ∀ s : CPU, Reachable s → Reachable s.step.2

/-- An Implicit operand handle, as produced for Implicit-mode entries. -/
def implicitTarget : ValueStore := ⟨0, VSType.Implicit⟩

/-- Example state for the ADC carry evaluation: a fresh CPU with the Carry
flag set. -/
def exAdcState : CPU :=
  { CPU.init with flags := { Flags.reset with carry := true } }

/-- Example state for the relative-branch evaluation: pc points at an
offset byte 0x80 (the opcode has just been consumed). -/
def exRelState : CPU :=
  { CPU.init with
    pc := 0x602
    memory := fun a => if a = 0x602 then 0x80 else 0 }

/-- Example state for the indirect-jump evaluation: the operand bytes at pc
encode the absolute address 0x1001, and the pointer bytes live at 0x1001,
0x1002 and 0x1000. -/
def exIndState : CPU :=
  { CPU.init with
    pc := 0x700
    memory := fun a =>
      if a = 0x700 then 0x01 else if a = 0x701 then 0x10
      else if a = 0x1001 then 0x34 else if a = 0x1002 then 0x12
      else if a = 0x1000 then 0x55 else 0 }

/-- Example state whose next opcode 0x02 is undocumented (a null table
entry). -/
def exHaltState : CPU :=
  { CPU.init with memory := fun a => if a = 0x600 then 0x02 else 0 }

/-- Example state with a non-zero accumulator, for resetting. -/
def exResetState : CPU := { CPU.init with accumulator := 5 }

/-- Example state for the PHP/PLP round trip: Carry, Break and Overflow
set, Unused clear. -/
def exPhpState : CPU :=
  { CPU.init with flags := ⟨true, false, false, false, true, false, true, false⟩ }

/-! Preservation lemmas for the status register. -/

/-- Writing through an operand handle never touches the flags. -/
theorem ValueStore.write_flags (t : ValueStore) (s : CPU) (v : Nat) :
    (t.write s v).flags = s.flags := by
  rcases t with ⟨val, ty⟩
  cases ty <;> rfl

/-- A memory write never touches the flags. -/
theorem CPU.memoryWrite_flags (s : CPU) (a v : Nat) :
    (s.write a v).flags = s.flags :=
  rfl

/-- popFlags forces the Unused bit on. -/
theorem CPU.popFlags_unused (s : CPU) : s.popFlags.flags.unused = true := rfl

/-- popFlags forces the Break bit off. -/
theorem CPU.popFlags_breakFlag (s : CPU) : s.popFlags.flags.breakFlag = false :=
  rfl

/-- Every operation leaves the Unused flag set: the instruction bodies only
update other flag bits, and the two flag-restoring paths go through
popFlags, which forces it on. -/
theorem CPU.execOp_unused (s : CPU) (op : Op) (t : ValueStore)
    (h : s.flags.unused = true) : (s.execOp op t).flags.unused = true := by
  cases op <;>
    first
      | exact h
      | rfl
      | (simp only [CPU.execOp, CPU.oASL, CPU.oDEC, CPU.oINC, CPU.oLSR,
          CPU.oROL, CPU.oROR, CPU.oSTA, CPU.oSTX, CPU.oSTY,
          ValueStore.write_flags]
         exact h)
      | (simp only [CPU.execOp, CPU.oBCC, CPU.oBCS, CPU.oBEQ, CPU.oBMI,
          CPU.oBNE, CPU.oBPL, CPU.oBVC, CPU.oBVS]
         split <;> exact h)

/-- Operand resolution never touches the flags. -/
theorem CPU.getTarget_flags (s : CPU) (m : AddressMode) :
    (s.getTarget m).2.flags = s.flags := by
  cases m <;>
    first
      | rfl
      | (simp only [CPU.getTarget]
         split <;> rfl)

/-- One interpreter step leaves the Unused flag set. -/
theorem CPU.step_unused (s : CPU) (h : s.flags.unused = true) :
    s.step.2.flags.unused = true := by
  rcases hI : instructions (s.read s.pc) with _ | ⟨op, m⟩
  · simp only [CPU.step, hI]
    exact h
  · simp only [CPU.step, hI]
    exact CPU.execOp_unused _ _ _ (by rw [CPU.getTarget_flags]; exact h)

/-- C4: in every state reachable from reset by executing instructions, the
U (Unused) flag of the status register is 1, and the flag-pull path
(popFlags, used by PLP and RTI) forces U to 1 and B to 0 in the restored
status register. -/
theorem unused_flag_invariant :
    (∀ s : CPU, Reachable s → s.flags.unused = true) ∧
    (∀ s : CPU, s.popFlags.flags.unused = true ∧
      s.popFlags.flags.breakFlag = false) := by
  constructor
  · intro s hr
    induction hr with
    | reset s => rfl
    | step s _ ih => exact CPU.step_unused s ih
  · intro s
    exact ⟨rfl, rfl⟩

/-- Witness for C4: the invariant evaluated at the reset state itself. -/
theorem unused_flag_invariant_witness :
    (CPU.reset CPU.init).flags.unused = true :=
  unused_flag_invariant.1 _ (Reachable.reset CPU.init)

/-- C8: when the fetched opcode has a null decoder-table entry, step
returns false and the state is unchanged except that pc has advanced over
the opcode byte (wrapping modulo 2^16, as all pc arithmetic does). -/
theorem step_null_entry (s : CPU)
    (h : instructions (s.read s.pc) = none) :
    s.step = (false, { s with pc := (s.pc + 1) % 65536 }) := by
  simp only [CPU.step, h]

/-- Witness for C8: opcode 0x02 is undocumented; stepping exHaltState
halts with only pc advanced. -/
theorem step_null_entry_witness :
    instructions (exHaltState.read exHaltState.pc) = none ∧
    exHaltState.step = (false, { exHaltState with pc := 0x601 }) :=
  ⟨by decide, step_null_entry exHaltState (by decide)⟩

/-- Counterexample for C5: reset() does not clear the accumulator, so the
claimed A = 0 after reset fails on a CPU whose accumulator held 5. -/
theorem reset_accumulator_counterexample :
    (CPU.reset exResetState).accumulator ≠ 0 := by decide

/-- C5 (amended): reset() zeroes memory and restores PC, SP and the status
register to 0x0600, 0xFD and 0x24, but leaves A, X and Y as they were
(they are zero only because the constructor zero-initialises them). -/
theorem reset_state (s : CPU) :
    s.reset.pc = 0x600 ∧ s.reset.stack = 0xFD ∧
    s.reset.flags = Flags.reset ∧ s.reset.flags.toByte = 0x24 ∧
    (∀ a, s.reset.memory a = 0) ∧
    s.reset.accumulator = s.accumulator ∧
    s.reset.indexX = s.indexX ∧ s.reset.indexY = s.indexY :=
  ⟨rfl, rfl, rfl, rfl, fun _ => rfl, rfl, rfl, rfl⟩

/-- C1 at its failing input: with A = 0, Carry set and operand 0xFF the
sum 0 + 255 + 1 = 256 needs the Carry flag set, but the code computes
C as (result < old A), which is false because the 8-bit result equals the
old accumulator.  A, Z, N are as the claim states. -/
theorem adc_carry_bug :
    (exAdcState.oADC ⟨255, VSType.Value⟩).accumulator = 0 ∧
    (exAdcState.oADC ⟨255, VSType.Value⟩).flags.zero = true ∧
    (exAdcState.oADC ⟨255, VSType.Value⟩).flags.negative = false ∧
    (exAdcState.oADC ⟨255, VSType.Value⟩).flags.carry = false ∧
    256 ≤ exAdcState.accumulator + 255 + 1 := by decide

/-- C2 at its failing input: a taken branch whose offset byte is 0x80 at
pc = 0x0602 must target 0x0603 - 128 = 0x0583 under two's-complement
decoding, but the code computes pc + (offset XOR 0x80) = 0x0603. -/
theorem relative_branch_bug :
    (exRelState.getTarget AddressMode.Relative).2.pc = 0x603 ∧
    (exRelState.getTarget AddressMode.Relative).1.get = 0x603 ∧
    (exRelState.getTarget AddressMode.Relative).1.get ≠ 0x583 := by decide

/-- C3 at its failing input: JMP ($1001) must read its pointer from
0x1001/0x1002 giving 0x1234, but the code applies the page-wrap to every
address whose low byte is non-zero, reading the high byte from 0x1000 and
producing 0x5534. -/
theorem indirect_jump_bug :
    (exIndState.getTarget AddressMode.Indirect).1.get = 0x5534 ∧
    (exIndState.getTarget AddressMode.Indirect).1.get ≠ 0x1234 := by decide

/-- C6 at its failing input: BRK from the initial state (P = 0x24, B
clear) sets I and pushes PC high then low, but pushes the status byte
unchanged (0x24) instead of forcing the B bit to 1 (0x34). -/
theorem brk_push_bug :
    (CPU.init.oBRK implicitTarget).flags.interruptOff = true ∧
    (CPU.init.oBRK implicitTarget).memory 0x1FD = 0x06 ∧
    (CPU.init.oBRK implicitTarget).memory 0x1FC = 0x00 ∧
    (CPU.init.oBRK implicitTarget).memory 0x1FB = 0x24 ∧
    getBitN 4 ((CPU.init.oBRK implicitTarget).memory 0x1FB) = false := by
  decide

/-- C7: ADC sets the V flag exactly when the sign bits of the accumulator
and the operand agree with each other and differ from the sign bit of the
8-bit result. -/
theorem adc_overflow_flag (s : CPU) (v : Nat)
    (_ha : s.accumulator < 256) (hv : v < 256) :
    ((s.addWithCarry v).flags.overflow = true ↔
      (getBitN 7 s.accumulator = getBitN 7 v ∧
       getBitN 7 s.accumulator ≠
         getBitN 7 ((s.accumulator + v + cond s.flags.carry 1 0) % 256))) := by
  simp only [CPU.addWithCarry, CPU.calculateFlag, isNegativeN,
    decide_eq_true_eq]
  rw [Nat.mod_eq_of_lt hv]
  generalize getBitN 7 ((s.accumulator + v + cond s.flags.carry 1 0) % 256) = z
  generalize getBitN 7 s.accumulator = x
  generalize getBitN 7 v = y
  revert x y z
  decide

/-- Witness for C7: 64 + 64 overflows into the sign bit, setting V. -/
theorem adc_overflow_flag_witness :
    ({ CPU.init with accumulator := 64 }.addWithCarry 64).flags.overflow
      = true :=
  (adc_overflow_flag { CPU.init with accumulator := 64 } 64 (by decide)
    (by decide)).mpr (by decide)

/-- C9: loadProgram fails exactly when offset + length exceeds 65536; on
success it copies the program bytes to memory at offset, leaves every
other byte alone and sets pc to the offset. -/
theorem loadProgram_spec (s : CPU) (program : List Nat) (offset : Nat) :
    (s.loadProgram program offset = none ↔
      65536 < offset + program.length) ∧
    (∀ s2, s.loadProgram program offset = some s2 →
      s2.pc = offset ∧
      (∀ i, i < program.length →
        s2.memory (offset + i) = program.getD i 0 % 256) ∧
      (∀ a, a < offset ∨ offset + program.length ≤ a →
        s2.memory a = s.memory a)) := by
  unfold CPU.loadProgram
  by_cases hb : 65536 < offset + program.length
  · rw [if_pos hb]
    refine ⟨⟨fun _ => hb, fun _ => rfl⟩, fun s2 h2 => ?_⟩
    exact Option.noConfusion h2
  · rw [if_neg hb]
    refine ⟨⟨fun h => Option.noConfusion h, fun h => absurd h hb⟩,
      fun s2 h2 => ?_⟩
    injection h2 with h2
    subst h2
    refine ⟨rfl, fun i hi => ?_, fun a ha => ?_⟩
    · show (if offset ≤ offset + i ∧ offset + i < offset + program.length
          then program.getD (offset + i - offset) 0 % 256
          else s.memory (offset + i)) = program.getD i 0 % 256
      rw [if_pos ⟨Nat.le_add_right _ _, by omega⟩]
      have hsub : offset + i - offset = i := by omega
      rw [hsub]
    · show (if offset ≤ a ∧ a < offset + program.length
          then program.getD (a - offset) 0 % 256
          else s.memory a) = s.memory a
      rw [if_neg (by omega)]

/-- Witness for C9: loading two bytes at 0x0600 succeeds, sets pc and
stores the second byte at 0x0601. -/
theorem loadProgram_spec_witness :
    ((CPU.init.loadProgram [7, 8] 0x600).getD CPU.init).pc = 0x600 ∧
    ((CPU.init.loadProgram [7, 8] 0x600).getD CPU.init).memory (0x600 + 1)
      = [7, 8].getD 1 0 % 256 := by
  have h := (loadProgram_spec CPU.init [7, 8] 0x600).2
    ((CPU.init.loadProgram [7, 8] 0x600).getD CPU.init) rfl
  exact ⟨h.1, h.2.1 1 (by decide)⟩

/-- The status byte pushed by PHP is still a byte. -/
theorem Flags.toByte_or16_lt (f : Flags) : f.toByte ||| 16 < 256 := by
  rcases f with ⟨c, z, i, d, b, u, v, n⟩
  revert c z i d b u v n
  decide

/-- Parsing back the byte pushed by PHP and applying the U/B fix-up of
popFlags recovers the original flags with U forced on and B forced off. -/
theorem Flags.php_plp_fix (f : Flags) :
    { Flags.ofByte (f.toByte ||| 16) with
      unused := true, breakFlag := false } =
    { f with unused := true, breakFlag := false } := by
  rcases f with ⟨c, z, i, d, b, u, v, n⟩
  revert c z i d b u v n
  decide

/-- C10: PHP followed by PLP restores SP, restores P with U forced to 1
and B forced to 0, and leaves all other registers untouched. -/
theorem php_plp_roundtrip (s : CPU) (h : s.stack < 256) :
    ((s.oPHP implicitTarget).oPLP implicitTarget).stack = s.stack ∧
    ((s.oPHP implicitTarget).oPLP implicitTarget).flags =
      { s.flags with unused := true, breakFlag := false } ∧
    ((s.oPHP implicitTarget).oPLP implicitTarget).accumulator
      = s.accumulator ∧
    ((s.oPHP implicitTarget).oPLP implicitTarget).indexX = s.indexX ∧
    ((s.oPHP implicitTarget).oPLP implicitTarget).indexY = s.indexY ∧
    ((s.oPHP implicitTarget).oPLP implicitTarget).pc = s.pc := by
  have hlt : s.flags.toByte ||| 16 < 256 := Flags.toByte_or16_lt s.flags
  simp only [CPU.oPHP, CPU.oPLP, CPU.popFlags, CPU.pop, CPU.push,
    CPU.write, CPU.read, stackTop]
  have e0 : s.stack % 256 = s.stack := Nat.mod_eq_of_lt h
  rw [e0]
  have e1 : ((s.stack + 255) % 256 + 1) % 256 = s.stack := by omega
  rw [e1]
  have e2 : (256 + s.stack) % 65536 = 256 + s.stack := by omega
  rw [e2]
  rw [Function.update_same]
  have e3 : (s.flags.toByte ||| 16) % 256 = s.flags.toByte ||| 16 :=
    Nat.mod_eq_of_lt hlt
  rw [e3, e3]
  exact ⟨rfl, Flags.php_plp_fix s.flags, trivial, trivial, trivial, trivial⟩

/-- Witness for C10: the round trip on a state with C, B and V set and U
clear yields P with U set, B clear and C, V kept. -/
theorem php_plp_roundtrip_witness :
    ((exPhpState.oPHP implicitTarget).oPLP implicitTarget).stack
      = exPhpState.stack ∧
    ((exPhpState.oPHP implicitTarget).oPLP implicitTarget).flags =
      { exPhpState.flags with unused := true, breakFlag := false } :=
  ⟨(php_plp_roundtrip exPhpState (by decide)).1,
   (php_plp_roundtrip exPhpState (by decide)).2.1⟩

end Microlator
